import Mathlib

/-!
Shallow embedding of the watlow_controller repository (watlow_f4.py,
program_handler.py, tune_watlow.py) and proofs about it.

Modelling conventions:
* Python floats are modelled as exact rationals (ℚ); all constants that the
  claims touch (0.9, 0.3, 1.2, 9.99, 1e-9, ...) are written as the exact
  rationals the source literals denote.
* Python `round` (banker's rounding, round-half-to-even) is `pythonRound`.
* Register writes are recorded in a trace `List Write`; a fallible operation
  returns `List Write × Except PyErr α` (the trace up to the failure point is
  kept).  Sequencing is the combinator `mseq`.
* Register addresses come from watlow_f4_registers.py, which only defines the
  numeric address of each named register; the claims depend only on register
  identity, so registers are modelled as a symbolic inductive `Reg`
  (event-output registers 1..8 are contiguous in the source, modelled by the
  indexed constructor `profileEventOutput`).
* Logging calls have no register effect and are dropped, except where a log
  f-string itself raises (it dereferences the loop variable of a loop that may
  not have run); those points are modelled faithfully.
-/

namespace Watlow

/-- Python `round` on an exact rational: round half to even. -/
def pythonRound (q : ℚ) : ℤ :=
  let f := ⌊q⌋
  let r := q - (f : ℚ)
  if r < 1/2 then f
  else if 1/2 < r then f + 1
  else if f % 2 = 0 then f else f + 1

/-- watlow_f4.py `ParamSpec` (lines 14-18): engineering limits for one PID field. -/
structure ParamSpec where
  min : ℚ
  max : ℚ
  num_decimals : ℕ
  deriving DecidableEq

/-- watlow_f4.py line 20. -/
def PB_ENG_PARAM : ParamSpec := ⟨0, 30000, 0⟩
/-- watlow_f4.py line 21. -/
def INTEGRAL_SI_ENG_PARAM : ParamSpec := ⟨0, 300, 2⟩
/-- watlow_f4.py line 22. -/
def DERIVATIVE_SI_ENG_PARAM : ParamSpec := ⟨0, 999/100, 2⟩
/-- watlow_f4.py line 23. -/
def RESET_US_ENG_PARAM : ParamSpec := ⟨0, 9999/100, 2⟩
/-- watlow_f4.py line 24. -/
def RATE_US_ENG_PARAM : ParamSpec := ⟨0, 999/100, 2⟩
/-- watlow_f4.py line 25. -/
def DB_ENG_PARAM : ParamSpec := ⟨0, 30000, 0⟩
/-- watlow_f4.py line 26. -/
def HYST_ENG_PARAM : ParamSpec := ⟨1, 30000, 0⟩

/-- The `if val < min: ... elif val > max: ...` clamp used for the
proportional band in `write_pid_parameters` (watlow_f4.py lines 224-229). -/
def clampLoHi (s : ParamSpec) (v : ℚ) : ℚ :=
  if v < s.min then s.min
  else if s.max < v then s.max
  else v

/-- The two sequential `if val < min: ...` / `if val > max: ...` clamp used for
the optional PID fields in `write_pid_parameters` (e.g. lines 235-240). -/
def clampSeq (s : ParamSpec) (v : ℚ) : ℚ :=
  let v1 := if v < s.min then s.min else v
  if s.max < v1 then s.max else v1

/-- watlow_f4.py `PIDParameters` dataclass (lines 32-40).  `dead_band` and
`hysteresis` are declared as plain floats in the dataclass, but
`write_pid_parameters` tests both against `None`, so they are modelled as
`Option ℚ` like the four explicitly optional fields. -/
structure PIDParameters where
  proportional_band : ℚ
  dead_band : Option ℚ
  hysteresis : Option ℚ
  integral : Option ℚ := none
  derivative : Option ℚ := none
  reset : Option ℚ := none
  rate : Option ℚ := none
  deriving DecidableEq

/-- The device PID units mode, as returned by `get_pid_units_mode`
(watlow_f4.py lines 160-167): register value 1 is SI, anything else US. -/
inductive PidUnitsMode
  | SI
  | US
  deriving DecidableEq

/-- Python exceptions that the modelled code can raise. -/
inductive PyErr
  | nameError
  | typeError
  | indexError
  | valueError
  deriving DecidableEq

/-- Symbolic register names (watlow_f4_registers.py members used by the core;
only identity matters to the claims, not the numeric address). -/
inductive Reg
  | pidPB
  | pidIntegralSI
  | pidResetUS
  | pidDerivativeSI
  | pidRateUS
  | pidDeadBand
  | pidHyst
  | valueSetPoint1
  | saveChangesToEeprom
  | profileNumber
  | profileStepNumber
  | profileEditAction
  | profileWaitFor
  | profileEventOutput (idx : ℕ)
  | profileRampSetpointCh1
  | profileRampSetpointCh2
  | profilePidSetCh1
  | profilePidSetCh2
  | profileGuaranteedSoakCh1
  | profileGuaranteedSoakCh2
  | profileRateRampRate
  | profileSoakHours
  | profileSoakMinutes
  | profileSoakSeconds
  | profileJumpToProfile
  | profileJumpToStep
  | profileJumpRepeats
  | profileEndAction
  | profileEndIdleCh1
  | profileEndIdleCh2
  | profileStepType
  | profileAutostartDateOrDay
  | profileAutostartMonth
  | profileAutostartDay
  | profileAutostartYear
  | profileAutostartDayOfWeek
  | profileAutostartHours
  | profileAutostartMinutes
  | profileAutostartSeconds
  deriving DecidableEq

/-- One register write: the register and the (pre-scaling) value passed to
`write_register`. -/
structure Write where
  reg : Reg
  value : ℚ
  deriving DecidableEq

/-- Sequencing of two traced fallible computations: if the first failed, its
trace and error are the result; otherwise the traces concatenate and the second
result stands. -/
def mseq : List Write × Except PyErr Unit → List Write × Except PyErr Unit →
    List Write × Except PyErr Unit
  | (t, .error e), _ => (t, .error e)
  | (t, .ok _), b => (t ++ b.1, b.2)

/-- The values written to register `r` in trace `tr`, in order. -/
def writesTo : List Write → Reg → List ℚ
  | [], _ => []
  | w :: tr, r => if w.reg = r then w.value :: writesTo tr r else writesTo tr r

/-- Python `int(b)` / raw bool register value: True ↦ 1, False ↦ 0. -/
def boolToQ (b : Bool) : ℚ := if b then 1 else 0

/-- watlow_f4.py `save_changes_to_eeprom` (lines 302-307): tries to write the
commit register and catches ANY exception, only logging it.  `commitFails`
models whether the device-side write raises; in that case no write lands, but
the method still returns normally. -/
def save_changes_to_eeprom (commitFails : Bool) : List Write × Except PyErr Unit :=
  ((if commitFails then [] else [⟨Reg.saveChangesToEeprom, 0⟩]), Except.ok ())

/-- watlow_f4.py `write_pid_parameters` (lines 207-300), for one fixed
(set, channel, side) register tuple.  Faithful to the source, including:
* the SI branch guarded by `pid_params.derivative is not None` reads
  `float(pid_params.reset)` (TypeError when `reset` is `None`), clamps it
  against `DERIVATIVE_SI_ENG_PARAM`, and writes it to `reg_rst_us`, the
  RESET register (lines 243-251);
* the US branch guarded by `pid_params.reset is not None` reads
  `float(pid_params.derivative)` (TypeError when `derivative` is `None`),
  clamps it against `RESET_US_ENG_PARAM`, and writes it to `reg_der_si`, the
  DERIVATIVE register (lines 254-262);
* hysteresis is written only when `int(round(pb_val)) == 0` (line 285). -/
def write_pid_parameters (mode : PidUnitsMode) (p : PIDParameters)
    (commitFails : Bool) : List Write × Except PyErr Unit :=
  let pb_val := clampLoHi PB_ENG_PARAM p.proportional_band
  mseq ([⟨Reg.pidPB, (pythonRound pb_val : ℚ)⟩], Except.ok ()) <|
  mseq
    (match mode with
     | .SI =>
        mseq
          (match p.integral with
           | none => ([], Except.ok ())
           | some v => ([⟨Reg.pidIntegralSI, clampSeq INTEGRAL_SI_ENG_PARAM v⟩], Except.ok ()))
          (match p.derivative with
           | none => ([], Except.ok ())
           | some _ =>
              match p.reset with
              | none => ([], Except.error PyErr.typeError)
              | some r => ([⟨Reg.pidResetUS, clampSeq DERIVATIVE_SI_ENG_PARAM r⟩], Except.ok ()))
     | .US =>
        mseq
          (match p.reset with
           | none => ([], Except.ok ())
           | some _ =>
              match p.derivative with
              | none => ([], Except.error PyErr.typeError)
              | some d => ([⟨Reg.pidDerivativeSI, clampSeq RESET_US_ENG_PARAM d⟩], Except.ok ()))
          (match p.rate with
           | none => ([], Except.ok ())
           | some v => ([⟨Reg.pidRateUS, clampSeq RATE_US_ENG_PARAM v⟩], Except.ok ()))) <|
  mseq
    (match p.dead_band with
     | none => ([], Except.ok ())
     | some v => ([⟨Reg.pidDeadBand, (pythonRound (clampSeq DB_ENG_PARAM v) : ℚ)⟩], Except.ok ()))
    (mseq
      (match p.hysteresis with
       | none => ([], Except.ok ())
       | some v =>
          if pythonRound pb_val = 0 then
            ([⟨Reg.pidHyst, (pythonRound (clampSeq HYST_ENG_PARAM v) : ℚ)⟩], Except.ok ())
          else ([], Except.ok ()))
      (save_changes_to_eeprom commitFails))

/-- watlow_f4.py `set_temperature_setpoint` (lines 155-158). -/
def set_temperature_setpoint (temperature : ℚ) (commitFails : Bool) :
    List Write × Except PyErr Unit :=
  mseq ([⟨Reg.valueSetPoint1, temperature⟩], Except.ok ())
    (save_changes_to_eeprom commitFails)

/-- watlow_f4.py `select_profile` (lines 309-315). -/
def select_profile (profile_number : ℤ) : List Write × Except PyErr Unit :=
  ([⟨Reg.profileNumber, (profile_number : ℚ)⟩], Except.ok ())

/-- watlow_f4.py `clear_profile` (lines 503-513). -/
def clear_profile (profile_number : ℤ) (commitFails : Bool) :
    List Write × Except PyErr Unit :=
  mseq (select_profile profile_number)
    (mseq ([⟨Reg.profileEditAction, 3⟩], Except.ok ())
      (save_changes_to_eeprom commitFails))

/-- watlow_f4.py `set_profile_name` (lines 489-501): its first statement is
`now_register = profile_name_enum_dict[profile_num]`, and the name
`profile_name_enum_dict` is defined nowhere in the module (nor imported), so
the call raises NameError before performing any register write. -/
def set_profile_name (profile_name : String) (profile_num : ℤ) :
    List Write × Except PyErr Unit :=
  ([], Except.error PyErr.nameError)

/-! ### program_handler.py: step and program data model -/

/-- A calendar date as used for `datetime.now()` fields. -/
structure Date where
  month : ℤ
  day : ℤ
  year : ℤ
  deriving DecidableEq

/-- program_handler.py step-detail dataclasses (lines 23-77).  `timedelta`
fields (`duration`, `start_time`) are modelled by their integer total seconds,
which is exactly what `timedelta_to_hours_minutes_seconds` consumes.
`Autostart.start_day` and `Autostart.start_date` default to `None` in the
source and are modelled as options. -/
inductive StepDetail
  | autostart (date_or_day : ℤ) (start_time : ℤ) (start_day : Option ℤ)
      (start_date : Option Date)
  | rampTime (wait_for : Bool) (event_output_states : List Bool) (duration : ℤ)
      (ch1_temp_setpoint ch2_temp_setpoint : ℚ)
      (ch1_pid_selection ch2_pid_selection : ℤ)
      (guaranteed_soak_1 guaranteed_soak_2 : Bool)
  | rampRate (wait_for : Bool) (event_output_states : List Bool) (rate : ℚ)
      (ch1_temp_setpoint : ℚ) (ch1_pid_selection : ℤ) (guaranteed_soak_1 : Bool)
  | soak (wait_for : Bool) (event_output_states : List Bool) (duration : ℤ)
      (ch1_pid_selection ch2_pid_selection : ℤ)
      (guaranteed_soak_1 guaranteed_soak_2 : ℤ)
  | jump (jump_to_profile jump_to_step number_of_repeats : ℤ)
  | endStep (end_action : ℤ) (ch1_idle_setpoint ch2_idle_setpoint : ℚ)
  deriving DecidableEq

/-- The class attribute `type_enum` of each step dataclass
(program_handler.py: Autostart 0, RampTime 1, RampRate 2, Soak 3, Jump 4,
End 5). -/
def StepDetail.type_enum : StepDetail → ℤ
  | .autostart _ _ _ _ => 0
  | .rampTime _ _ _ _ _ _ _ _ _ => 1
  | .rampRate _ _ _ _ _ _ => 2
  | .soak _ _ _ _ _ _ _ => 3
  | .jump _ _ _ => 4
  | .endStep _ _ _ => 5

/-- program_handler.py `StepTypeName` (lines 9-15). -/
inductive StepTypeName
  | RAMP_BY_TIME
  | RAMP_BY_RATE
  | SOAK
  | JUMP
  | END
  | AUTOSTART
  deriving DecidableEq

/-- program_handler.py `Step` dataclass (lines 81-84). -/
structure Step where
  type_name : StepTypeName
  details : StepDetail

/-- program_handler.py `Program` dataclass (lines 86-89).  A plain dataclass:
it defines `name` and `steps` and, in particular, no `__iter__`. -/
structure Program where
  name : String
  steps : List Step

/-- program_handler.py `timedelta_to_hours_minutes_seconds` (lines 91-97),
applied to `int(td.total_seconds())`.  Python `//` and `%` are floor division
and floor modulus, i.e. `Int.fdiv` / `Int.fmod`. -/
def timedelta_to_hours_minutes_seconds (totalSeconds : ℤ) : ℤ × ℤ × ℤ :=
  let hours := Int.fdiv totalSeconds 3600
  let remaining_seconds := Int.fmod totalSeconds 3600
  let minutes := Int.fdiv remaining_seconds 60
  let seconds := Int.fmod remaining_seconds 60
  (hours, minutes, seconds)

/-! ### watlow_f4.py: profile programming -/

/-- The writes issued by `for idx, enabled_state in enumerate(states)` loops in
`insert_step`: event output registers are contiguous from
`PROFILE_EVENT_OUTPUT_1`, so index `idx` targets `profileEventOutput idx`. -/
def eventWrites : ℕ → List Bool → List Write
  | _, [] => []
  | idx, s :: rest => ⟨Reg.profileEventOutput idx, boolToQ s⟩ :: eventWrites (idx + 1) rest

/-- After each event loop, `insert_step` logs an f-string mentioning the loop
variable `idx`; when the event list was empty the loop never bound `idx` and
the log statement itself raises NameError. -/
def eventLoopLog (states : List Bool) : Except PyErr Unit :=
  if states.isEmpty then Except.error PyErr.nameError else Except.ok ()

/-- watlow_f4.py `select_step` (lines 317-323). -/
def select_step (step_number : ℤ) : List Write × Except PyErr Unit :=
  ([⟨Reg.profileStepNumber, (step_number : ℚ)⟩], Except.ok ())

/-- watlow_f4.py `insert_step` (lines 325-487): select the step, set
edit-action 2, then write the fields of the given step variant.  Faithful to
the source, including:
* the RampTime branch writes no step-type register and runs its event-output
  loop twice (lines 342-348), and never writes the step duration;
* the Autostart branch writes the constant 0 to the date-or-day register
  (line 455) and the current wall-clock date `now` (lines 459-467), not the
  step's own `date_or_day` / `start_date` fields; writing `start_day` when it
  is `None` raises inside the register write (TypeError). -/
def insert_step (step_number : ℤ) (step : StepDetail) (now : Date) :
    List Write × Except PyErr Unit :=
  mseq (select_step step_number) <|
  mseq ([⟨Reg.profileEditAction, 2⟩], Except.ok ()) <|
  match step with
  | .rampTime wait_for states _duration sp1 sp2 pid1 pid2 gs1 gs2 =>
      mseq ([⟨Reg.profileWaitFor, boolToQ wait_for⟩], Except.ok ()) <|
      mseq (eventWrites 0 states, eventLoopLog states) <|
      mseq (eventWrites 0 states, eventLoopLog states) <|
      ([⟨Reg.profileRampSetpointCh1, sp1⟩,
        ⟨Reg.profileRampSetpointCh2, sp2⟩,
        ⟨Reg.profilePidSetCh1, (pid1 : ℚ)⟩,
        ⟨Reg.profilePidSetCh2, (pid2 : ℚ)⟩,
        ⟨Reg.profileGuaranteedSoakCh1, boolToQ gs1⟩,
        ⟨Reg.profileGuaranteedSoakCh2, boolToQ gs2⟩], Except.ok ())
  | .rampRate wait_for states rate sp1 pid1 gs1 =>
      mseq ([⟨Reg.profileStepType, 2⟩], Except.ok ()) <|
      mseq ([⟨Reg.profileWaitFor, boolToQ wait_for⟩], Except.ok ()) <|
      mseq (eventWrites 0 states, eventLoopLog states) <|
      ([⟨Reg.profileRateRampRate, rate⟩,
        ⟨Reg.profileRampSetpointCh1, sp1⟩,
        ⟨Reg.profilePidSetCh1, (pid1 : ℚ)⟩,
        ⟨Reg.profileGuaranteedSoakCh1, boolToQ gs1⟩], Except.ok ())
  | .soak wait_for states duration pid1 pid2 gs1 gs2 =>
      mseq ([⟨Reg.profileStepType, 3⟩], Except.ok ()) <|
      mseq ([⟨Reg.profileWaitFor, boolToQ wait_for⟩], Except.ok ()) <|
      mseq (eventWrites 0 states, eventLoopLog states) <|
      (let hms := timedelta_to_hours_minutes_seconds duration
       ([⟨Reg.profileSoakHours, (hms.1 : ℚ)⟩,
         ⟨Reg.profileSoakMinutes, (hms.2.1 : ℚ)⟩,
         ⟨Reg.profileSoakSeconds, (hms.2.2 : ℚ)⟩,
         ⟨Reg.profilePidSetCh1, (pid1 : ℚ)⟩,
         ⟨Reg.profilePidSetCh2, (pid2 : ℚ)⟩,
         ⟨Reg.profileGuaranteedSoakCh1, (gs1 : ℚ)⟩,
         ⟨Reg.profileGuaranteedSoakCh2, (gs2 : ℚ)⟩], Except.ok ()))
  | .jump toProfile toStep repeats =>
      ([⟨Reg.profileStepType, 4⟩,
        ⟨Reg.profileJumpToProfile, (toProfile : ℚ)⟩,
        ⟨Reg.profileJumpToStep, (toStep : ℚ)⟩,
        ⟨Reg.profileJumpRepeats, (repeats : ℚ)⟩], Except.ok ())
  | .endStep end_action idle1 idle2 =>
      ([⟨Reg.profileStepType, 5⟩,
        ⟨Reg.profileEndAction, (end_action : ℚ)⟩,
        ⟨Reg.profileEndIdleCh1, idle1⟩,
        ⟨Reg.profileEndIdleCh2, idle2⟩], Except.ok ())
  | .autostart _date_or_day start_time start_day _start_date =>
      mseq ([⟨Reg.profileStepType, 0⟩], Except.ok ()) <|
      mseq ([⟨Reg.profileAutostartDateOrDay, 0⟩], Except.ok ()) <|
      mseq ([⟨Reg.profileAutostartMonth, (now.month : ℚ)⟩,
             ⟨Reg.profileAutostartDay, (now.day : ℚ)⟩,
             ⟨Reg.profileAutostartYear, (now.year : ℚ)⟩], Except.ok ()) <|
      mseq (match start_day with
            | none => ([], Except.error PyErr.typeError)
            | some d => ([⟨Reg.profileAutostartDayOfWeek, (d : ℚ)⟩], Except.ok ())) <|
      (let hms := timedelta_to_hours_minutes_seconds start_time
       ([⟨Reg.profileAutostartHours, (hms.1 : ℚ)⟩,
         ⟨Reg.profileAutostartMinutes, (hms.2.1 : ℚ)⟩,
         ⟨Reg.profileAutostartSeconds, (hms.2.2 : ℚ)⟩], Except.ok ()))

/-- The step loop of `configure_profile` (watlow_f4.py line 531):
`for i, step in enumerate(program)` iterates the `Program` dataclass itself,
which defines no `__iter__`, so Python raises TypeError here (this point is
unreachable in practice because `set_profile_name` raises first). -/
def program_step_loop (program : Program) (now : Date) :
    List Write × Except PyErr Unit :=
  ([], Except.error PyErr.typeError)

/-- watlow_f4.py `configure_profile` (lines 526-534). -/
def configure_profile (program : Program) (profile_num : ℤ) (now : Date)
    (commitFails : Bool) : List Write × Except PyErr Unit :=
  mseq (select_profile profile_num) <|
  mseq (set_profile_name program.name 40) <|
  mseq (program_step_loop program now)
    (save_changes_to_eeprom commitFails)

/-! ### tune_watlow.py: step-response analysis and Ziegler-Nichols tuning -/

/-- tune_watlow.py `StepResponseData` dataclass (lines 12-18). -/
structure StepResponseData where
  time_points : List ℚ
  temp_points : List ℚ
  initial_setpoint : ℚ
  final_setpoint : ℚ
  step_command_execution_time : ℚ

/-- tune_watlow.py `clamp` helper (lines 21-22): `max(min(val, max_val), min_val)`. -/
def clamp (val min_val max_val : ℚ) : ℚ :=
  max (min val max_val) min_val

/-- Python list indexing `l[i]` for a non-negative index: IndexError when out
of range. -/
def listGet (l : List ℚ) (i : ℕ) : Except PyErr ℚ :=
  match l.get? i with
  | some v => Except.ok v
  | none => Except.error PyErr.indexError

/-- Python `l[-1]` on a list guarded to be non-empty. -/
def listLast (l : List ℚ) : Except PyErr ℚ :=
  match l.getLast? with
  | some v => Except.ok v
  | none => Except.error PyErr.indexError

/-- The maximum-slope scan of `find_reaction_curve_params`
(tune_watlow.py lines 118-131): iterate `i` over `range(len(step_temp_pts)-1)`
(`fuel` counts the remaining iterations), carrying
`(max_slope, slope_time_start, slope_pv_start)`; skip pairs closer than 1e-6
in time, keep the slope of greatest magnitude.  Indexing `step_time_pts` can
raise IndexError when it is shorter than `step_temp_pts`. -/
def maxSlopeLoop (stimes stemps : List ℚ) :
    ℕ → ℕ → ℚ × ℚ × ℚ → Except PyErr (ℚ × ℚ × ℚ)
  | _, 0, acc => Except.ok acc
  | i, fuel + 1, acc => do
      let t1 ← listGet stimes (i + 1)
      let t0 ← listGet stimes i
      let dt := t1 - t0
      if dt < 1/1000000 then
        maxSlopeLoop stimes stemps (i + 1) fuel acc
      else do
        let p1 ← listGet stemps (i + 1)
        let p0 ← listGet stemps i
        let current_slope := (p1 - p0) / dt
        let acc1 := if |acc.1| < |current_slope| then (current_slope, t0, p0) else acc
        maxSlopeLoop stimes stemps (i + 1) fuel acc1

/-- The 63.2%-rise search of `find_reaction_curve_params`
(tune_watlow.py lines 146-152): first index `i` (over `range(len(step_temp_pts))`)
with `step_time_pts[i] >= L` and `step_temp_pts[i] >= target`; returns that
time point, or `none` when never found. -/
def findTLoop (stimes stemps : List ℚ) (L target : ℚ) :
    ℕ → ℕ → Except PyErr (Option ℚ)
  | _, 0 => Except.ok none
  | i, fuel + 1 => do
      let ti ← listGet stimes i
      if L ≤ ti then do
        let pv ← listGet stemps i
        if target ≤ pv then Except.ok (some ti)
        else findTLoop stimes stemps L target (i + 1) fuel
      else findTLoop stimes stemps L target (i + 1) fuel

/-- tune_watlow.py `find_reaction_curve_params` (lines 78-162).  Returns the
estimated `(Kp, L, T)`; `Except` models the Python exceptions the body can
raise (list indexing).  Fewer than 3 time points returns the fixed fallback
`(0.1, 2·interval, 5·interval)` immediately. -/
def find_reaction_curve_params (response_data : StepResponseData)
    (sample_interval : ℚ) : Except PyErr (ℚ × ℚ × ℚ) :=
  let time_pts := response_data.time_points
  let temp_pts := response_data.temp_points
  if time_pts.length < 3 then
    Except.ok (1/10, sample_interval * 2, sample_interval * 5)
  else do
    let initial_pv ← listGet temp_pts 0
    let step_time_pts := time_pts.filter (fun t => 0 ≤ t)
    let step_temp_pts := temp_pts.drop (time_pts.length - step_time_pts.length)
    if step_temp_pts.isEmpty then
      Except.ok (1/10, sample_interval * 2, sample_interval * 5)
    else do
      let final_pv_steady_state ← listLast step_temp_pts
      let delta_pv_total := final_pv_steady_state - initial_pv
      let kp0 := delta_pv_total / 100
      let Kp_process :=
        if |kp0| < 1/1000000000 then
          (1/10) * (if 0 ≤ delta_pv_total then 1 else -1)
        else kp0
      let acc0 : ℚ × ℚ × ℚ := (0, 0, initial_pv)
      let acc ←
        if 1 < step_time_pts.length then
          maxSlopeLoop step_time_pts step_temp_pts 0 (step_temp_pts.length - 1) acc0
        else pure acc0
      let max_slope := acc.1
      if |max_slope| < 1/1000000 then
        Except.ok (Kp_process, sample_interval * 2, sample_interval * 5)
      else do
        let L0 := acc.2.1 - (acc.2.2 - initial_pv) / max_slope
        let L := max 0 L0
        let pv_at_L := initial_pv + L * max_slope
        let target_temp := pv_at_L + (632/1000) * (final_pv_steady_state - pv_at_L)
        let tOpt ← findTLoop step_time_pts step_temp_pts L target_temp 0
          step_temp_pts.length
        let T0 :=
          match tOpt with
          | some t63 => t63 - L
          | none =>
              if 0 < step_time_pts.length then
                if 1/1000000 < |max_slope| then
                  (final_pv_steady_state - pv_at_L) / max_slope
                else sample_interval * 3
              else 0
        Except.ok (Kp_process, L, max T0 sample_interval)

/-- The controller type argument of
`calculate_new_watlow_pids_from_step_response` after `.upper()`; any other
string raises ValueError (tune_watlow.py line 199). -/
inductive PidType
  | P
  | PI
  | PID
  deriving DecidableEq

/-- The tuning quantities computed by
`calculate_new_watlow_pids_from_step_response`: controller gain `Kc`,
integral time in seconds (`none` encodes the float infinity it is initialized
to), derivative time in seconds, and the pre-clamp proportional band. -/
structure ZNResult where
  Kc : ℚ
  Ti_s : Option ℚ
  Td_s : ℚ
  pb_new : ℚ
  deriving DecidableEq

/-- The `L`/`T` fallback adjustments of
`calculate_new_watlow_pids_from_step_response` (tune_watlow.py lines 177-178). -/
def zn_LT_adjust (sample_interval L T : ℚ) : ℚ × ℚ :=
  (if L < sample_interval / 10 then sample_interval / 10 else L,
   if T < sample_interval then sample_interval else T)

/-- The Ziegler-Nichols core of `calculate_new_watlow_pids_from_step_response`
(tune_watlow.py lines 180-204): from the (adjusted) reaction-curve parameters
and controller type to `(Kc, Ti_s, Td_s, pb_new)`.  When `|Kp·L|` is below
1e-9 the table is skipped: the band falls back to the maximum and the
integral/derivative action to the unit-mode-dependent minimal values
(`RESET_US_ENG_PARAM.min = 0`, so the US branch keeps the float infinity,
modelled `none`). -/
def zn_tuning_core (pid_units_mode : PidUnitsMode) (Kp_proc L T : ℚ)
    (pid_type : PidType) : ZNResult :=
  if |Kp_proc * L| < 1/1000000000 then
    { Kc := 0
      Ti_s := match pid_units_mode with
              | .SI => some (INTEGRAL_SI_ENG_PARAM.max * 60)
              | .US => none
      Td_s := 0
      pb_new := PB_ENG_PARAM.max }
  else
    let znt : ℚ × Option ℚ × ℚ :=
      match pid_type with
      | .P => (T / (Kp_proc * L), none, 0)
      | .PI => (9/10 * T / (Kp_proc * L), some (L / (3/10)), 0)
      | .PID => (6/5 * T / (Kp_proc * L), some (2 * L), 1/2 * L)
    { Kc := znt.1
      Ti_s := znt.2.1
      Td_s := znt.2.2
      pb_new := if znt.1 = 0 then PB_ENG_PARAM.max else 100 / znt.1 }

/-- A one-step `End`-only program, used as a concrete input. -/
def demoProgram : Program :=
  ⟨"demo", [⟨StepTypeName.END, StepDetail.endStep 0 20 25⟩]⟩

/-! ### Helper lemmas -/

theorem writesTo_append (t1 t2 : List Write) (r : Reg) :
    writesTo (t1 ++ t2) r = writesTo t1 r ++ writesTo t2 r := by
  induction t1 with
  | nil => rfl
  | cons w tr ih =>
      simp only [List.cons_append, writesTo, List.append_eq, ih]
      split <;> simp

theorem mseq_snd (a b : List Write × Except PyErr Unit) :
    (mseq a b).2 =
      match a.2 with
      | .error e => .error e
      | .ok _ => b.2 := by
  obtain ⟨t, r⟩ := a
  cases r <;> rfl

theorem writesTo_eventWrites_stepType (l : List Bool) (k : ℕ) :
    writesTo (eventWrites k l) Reg.profileStepType = [] := by
  induction l generalizing k with
  | nil => rfl
  | cons s rest ih => simp [eventWrites, writesTo, ih]

/-! ### Claim theorems -/

/-- C3: for every `Program` and profile number, `configure_profile` raises
before any step field register is written: after the profile-select write,
`set_profile_name` dereferences the undefined name `profile_name_enum_dict`
and raises NameError (and were it reached, the step loop over the non-iterable
`Program` dataclass would raise TypeError), so the error branch is reached on
every input and the trace never contains a step-field write. -/
theorem configure_profile_always_raises (program : Program) (profile_num : ℤ)
    (now : Date) (commitFails : Bool) :
    configure_profile program profile_num now commitFails =
      ([⟨Reg.profileNumber, (profile_num : ℚ)⟩], Except.error PyErr.nameError) := by
  rfl

/-- C2: on a concrete one-step program, `configure_profile` does not issue the
claimed one select-step/edit-action-2/field-write sequence followed by one
EEPROM commit; it stops with NameError right after selecting the profile, with
no edit-action write, no step-number write and no commit in the trace. -/
theorem configure_profile_demo_never_programs_steps :
    configure_profile demoProgram 5 ⟨10, 12, 2026⟩ false =
      ([⟨Reg.profileNumber, 5⟩], Except.error PyErr.nameError) ∧
    writesTo (configure_profile demoProgram 5 ⟨10, 12, 2026⟩ false).1
      Reg.profileEditAction = [] ∧
    writesTo (configure_profile demoProgram 5 ⟨10, 12, 2026⟩ false).1
      Reg.profileStepNumber = [] ∧
    writesTo (configure_profile demoProgram 5 ⟨10, 12, 2026⟩ false).1
      Reg.saveChangesToEeprom = [] := by
  refine ⟨rfl, ?_, ?_, ?_⟩ <;> decide

/-- C5 (amended): `timedelta_to_hours_minutes_seconds` normalizes carries
(seconds component in [0,60), minutes component in [0,60), the triple re-sums
to the input) and maps 0h 125m 61s (7561 s) to (2, 6, 1), but the hours
component is NOT capped: it is exactly `total_seconds // 3600`. -/
theorem timedelta_hms_normalized (t : ℤ) :
    (timedelta_to_hours_minutes_seconds t).1 = Int.fdiv t 3600 ∧
    0 ≤ (timedelta_to_hours_minutes_seconds t).2.1 ∧
    (timedelta_to_hours_minutes_seconds t).2.1 < 60 ∧
    0 ≤ (timedelta_to_hours_minutes_seconds t).2.2 ∧
    (timedelta_to_hours_minutes_seconds t).2.2 < 60 ∧
    (timedelta_to_hours_minutes_seconds t).1 * 3600 +
      (timedelta_to_hours_minutes_seconds t).2.1 * 60 +
      (timedelta_to_hours_minutes_seconds t).2.2 = t ∧
    timedelta_to_hours_minutes_seconds 7561 = (2, 6, 1) := by
  have h3600 : (0 : ℤ) ≤ 3600 := by norm_num
  have h60 : (0 : ℤ) ≤ 60 := by norm_num
  refine ⟨rfl, ?_, ?_, ?_, ?_, ?_, by decide⟩ <;>
    simp only [timedelta_to_hours_minutes_seconds, Int.fdiv_eq_ediv _ h3600,
      Int.fdiv_eq_ediv _ h60, Int.fmod_eq_emod _ h3600, Int.fmod_eq_emod _ h60] <;>
    omega

/-- C5 counterexample: a 150-hour duration (540000 s) yields an hours
component of 150, not the claimed cap of 99. -/
theorem timedelta_hms_150h_not_capped :
    timedelta_to_hours_minutes_seconds 540000 = (150, 0, 0) ∧
    timedelta_to_hours_minutes_seconds 540000 ≠ (99, 0, 0) := by
  decide

/-- C7: a `StepResponseData` whose recorded time-point list has fewer than 3
entries makes `find_reaction_curve_params` return the fixed fallback triple
(Kp = 0.1, L = 2·interval, T = 5·interval) without raising. -/
theorem find_reaction_curve_params_fallback (response_data : StepResponseData)
    (sample_interval : ℚ) (h : response_data.time_points.length < 3) :
    find_reaction_curve_params response_data sample_interval =
      Except.ok (1/10, sample_interval * 2, sample_interval * 5) := by
  simp only [find_reaction_curve_params]
  rw [if_pos h]

theorem find_reaction_curve_params_fallback_witness :
    (StepResponseData.mk [0, 1] [25, 26] 25 45 2).time_points.length < 3 ∧
    find_reaction_curve_params (StepResponseData.mk [0, 1] [25, 26] 25 45 2) 1 =
      Except.ok (1/10, 1 * 2, 1 * 5) :=
  ⟨by decide,
   find_reaction_curve_params_fallback (StepResponseData.mk [0, 1] [25, 26] 25 45 2)
     1 (by decide)⟩

/-- C6: outside the near-zero `Kp·L` guard, the Ziegler-Nichols core computes
P: gain T/(Kp·L); PI: gain 0.9·T/(Kp·L), integral time L/0.3; PID: gain
1.2·T/(Kp·L), integral time 2L, derivative time 0.5L; the pre-clamp
proportional band is 100/gain whenever the gain is nonzero; and for
Kp=1, L=2, T=10 in PID mode the result is gain 6, integral time 4 s,
derivative time 1 s, band 100/6 = 50/3 (with the L/T fallback adjustments
leaving (2, 10) unchanged at sample interval 1). -/
theorem zn_tuning_table (mode : PidUnitsMode) (Kp L T : ℚ)
    (h : ¬ |Kp * L| < 1/1000000000) :
    (zn_tuning_core mode Kp L T PidType.P).Kc = T / (Kp * L) ∧
    (zn_tuning_core mode Kp L T PidType.P).Ti_s = none ∧
    (zn_tuning_core mode Kp L T PidType.P).Td_s = 0 ∧
    (zn_tuning_core mode Kp L T PidType.PI).Kc = 9/10 * T / (Kp * L) ∧
    (zn_tuning_core mode Kp L T PidType.PI).Ti_s = some (L / (3/10)) ∧
    (zn_tuning_core mode Kp L T PidType.PID).Kc = 6/5 * T / (Kp * L) ∧
    (zn_tuning_core mode Kp L T PidType.PID).Ti_s = some (2 * L) ∧
    (zn_tuning_core mode Kp L T PidType.PID).Td_s = 1/2 * L ∧
    (∀ pt : PidType, (zn_tuning_core mode Kp L T pt).Kc ≠ 0 →
      (zn_tuning_core mode Kp L T pt).pb_new = 100 / (zn_tuning_core mode Kp L T pt).Kc) ∧
    zn_LT_adjust 1 2 10 = (2, 10) ∧
    zn_tuning_core PidUnitsMode.SI 1 2 10 PidType.PID =
      ⟨6, some 4, 1, 50/3⟩ := by
  refine ⟨?_, ?_, ?_, ?_, ?_, ?_, ?_, ?_, ?_,
    by norm_num [zn_LT_adjust],
    by rw [zn_tuning_core, if_neg (by norm_num)]; norm_num [ZNResult.mk.injEq]⟩
  · rw [zn_tuning_core.eq_def, if_neg h]
  · rw [zn_tuning_core.eq_def, if_neg h]
  · rw [zn_tuning_core.eq_def, if_neg h]
  · rw [zn_tuning_core.eq_def, if_neg h]
  · rw [zn_tuning_core.eq_def, if_neg h]
  · rw [zn_tuning_core.eq_def, if_neg h]
  · rw [zn_tuning_core.eq_def, if_neg h]
  · rw [zn_tuning_core.eq_def, if_neg h]
  · intro pt hK
    cases pt <;>
      (rw [zn_tuning_core.eq_def, if_neg h] at hK ⊢
       dsimp only at hK ⊢
       exact if_neg hK)

theorem zn_tuning_table_witness :
    ¬ |(1 : ℚ) * 2| < 1/1000000000 ∧
    zn_tuning_core PidUnitsMode.SI 1 2 10 PidType.PID = ⟨6, some 4, 1, 50/3⟩ :=
  ⟨by norm_num,
   (zn_tuning_table PidUnitsMode.SI 1 2 10 (by norm_num)).2.2.2.2.2.2.2.2.2.2⟩

/-- C10: `save_changes_to_eeprom` swallows any failure of the commit-register
write, so it always returns normally, and each of its callers finishes its
commit step without observing a failure: the outcome of
`set_temperature_setpoint`, `clear_profile`, `write_pid_parameters` and
`configure_profile` is independent of whether the device-side commit write
failed. -/
theorem save_changes_never_propagates (commitFails : Bool) (temperature : ℚ)
    (profile_number : ℤ) (mode : PidUnitsMode) (p : PIDParameters)
    (program : Program) (profile_num : ℤ) (now : Date) :
    (save_changes_to_eeprom commitFails).2 = Except.ok () ∧
    (set_temperature_setpoint temperature commitFails).2 = Except.ok () ∧
    (clear_profile profile_number commitFails).2 = Except.ok () ∧
    (write_pid_parameters mode p commitFails).2 =
      (write_pid_parameters mode p false).2 ∧
    (configure_profile program profile_num now commitFails).2 =
      (configure_profile program profile_num now false).2 := by
  refine ⟨rfl, rfl, rfl, ?_, rfl⟩
  simp only [write_pid_parameters, mseq_snd, save_changes_to_eeprom]

/-- C8 (amended): encoding an `Autostart` step writes the step-type code, the
CONSTANT 0 (date mode) to the date-or-day register regardless of the step's own
`date_or_day` flag, the month/day/year of the wall-clock date `now` at
configuration time (not the step's `start_date`), the step's day-of-week
field, and the H/M/S decomposition of the step's `start_time`, in that order. -/
theorem autostart_encoding (n : ℤ) (now : Date) (date_or_day : ℤ)
    (start_time : ℤ) (d : ℤ) (start_date : Option Date) :
    insert_step n (StepDetail.autostart date_or_day start_time (some d) start_date) now =
      ([⟨Reg.profileStepNumber, (n : ℚ)⟩,
        ⟨Reg.profileEditAction, 2⟩,
        ⟨Reg.profileStepType, 0⟩,
        ⟨Reg.profileAutostartDateOrDay, 0⟩,
        ⟨Reg.profileAutostartMonth, (now.month : ℚ)⟩,
        ⟨Reg.profileAutostartDay, (now.day : ℚ)⟩,
        ⟨Reg.profileAutostartYear, (now.year : ℚ)⟩,
        ⟨Reg.profileAutostartDayOfWeek, (d : ℚ)⟩,
        ⟨Reg.profileAutostartHours, ((timedelta_to_hours_minutes_seconds start_time).1 : ℚ)⟩,
        ⟨Reg.profileAutostartMinutes, ((timedelta_to_hours_minutes_seconds start_time).2.1 : ℚ)⟩,
        ⟨Reg.profileAutostartSeconds, ((timedelta_to_hours_minutes_seconds start_time).2.2 : ℚ)⟩],
       Except.ok ()) := by
  rfl

/-- C8 counterexample: for an `Autostart` step whose `date_or_day` flag is 1,
the date-or-day register is still written with 0, not with the step's flag. -/
theorem autostart_date_or_day_flag_ignored :
    writesTo (insert_step 1 (StepDetail.autostart 1 3661 (some 2) none)
        ⟨10, 12, 2026⟩).1 Reg.profileAutostartDateOrDay = [0] ∧
    writesTo (insert_step 1 (StepDetail.autostart 1 3661 (some 2) none)
        ⟨10, 12, 2026⟩).1 Reg.profileAutostartDateOrDay ≠ [1] := by
  decide

/-- C9: for a `RampTime` step with its 8 event-output flags, `insert_step`
writes each of the 8 event-output registers exactly twice with the same value
(the event loop is duplicated in the source) and never writes the step-type
register, while every other step variant's encoding writes the step-type
register (with its `type_enum` code) exactly once. -/
theorem rampTime_double_events_no_step_type (n : ℤ) (now : Date) (wf : Bool)
    (b0 b1 b2 b3 b4 b5 b6 b7 : Bool) (dur : ℤ) (sp1 sp2 : ℚ) (pid1 pid2 : ℤ)
    (gs1 gs2 : Bool) :
    (writesTo (insert_step n (StepDetail.rampTime wf [b0, b1, b2, b3, b4, b5, b6, b7]
        dur sp1 sp2 pid1 pid2 gs1 gs2) now).1 (Reg.profileEventOutput 0) =
      [boolToQ b0, boolToQ b0] ∧
     writesTo (insert_step n (StepDetail.rampTime wf [b0, b1, b2, b3, b4, b5, b6, b7]
        dur sp1 sp2 pid1 pid2 gs1 gs2) now).1 (Reg.profileEventOutput 1) =
      [boolToQ b1, boolToQ b1] ∧
     writesTo (insert_step n (StepDetail.rampTime wf [b0, b1, b2, b3, b4, b5, b6, b7]
        dur sp1 sp2 pid1 pid2 gs1 gs2) now).1 (Reg.profileEventOutput 2) =
      [boolToQ b2, boolToQ b2] ∧
     writesTo (insert_step n (StepDetail.rampTime wf [b0, b1, b2, b3, b4, b5, b6, b7]
        dur sp1 sp2 pid1 pid2 gs1 gs2) now).1 (Reg.profileEventOutput 3) =
      [boolToQ b3, boolToQ b3] ∧
     writesTo (insert_step n (StepDetail.rampTime wf [b0, b1, b2, b3, b4, b5, b6, b7]
        dur sp1 sp2 pid1 pid2 gs1 gs2) now).1 (Reg.profileEventOutput 4) =
      [boolToQ b4, boolToQ b4] ∧
     writesTo (insert_step n (StepDetail.rampTime wf [b0, b1, b2, b3, b4, b5, b6, b7]
        dur sp1 sp2 pid1 pid2 gs1 gs2) now).1 (Reg.profileEventOutput 5) =
      [boolToQ b5, boolToQ b5] ∧
     writesTo (insert_step n (StepDetail.rampTime wf [b0, b1, b2, b3, b4, b5, b6, b7]
        dur sp1 sp2 pid1 pid2 gs1 gs2) now).1 (Reg.profileEventOutput 6) =
      [boolToQ b6, boolToQ b6] ∧
     writesTo (insert_step n (StepDetail.rampTime wf [b0, b1, b2, b3, b4, b5, b6, b7]
        dur sp1 sp2 pid1 pid2 gs1 gs2) now).1 (Reg.profileEventOutput 7) =
      [boolToQ b7, boolToQ b7]) ∧
    writesTo (insert_step n (StepDetail.rampTime wf [b0, b1, b2, b3, b4, b5, b6, b7]
        dur sp1 sp2 pid1 pid2 gs1 gs2) now).1 Reg.profileStepType = [] ∧
    (∀ (wf2 : Bool) (states : List Bool) (rate sp : ℚ) (pid : ℤ) (g : Bool),
      writesTo (insert_step n (StepDetail.rampRate wf2 states rate sp pid g) now).1
        Reg.profileStepType = [2]) ∧
    (∀ (wf2 : Bool) (states : List Bool) (dur2 : ℤ) (p1 p2 g1 g2 : ℤ),
      writesTo (insert_step n (StepDetail.soak wf2 states dur2 p1 p2 g1 g2) now).1
        Reg.profileStepType = [3]) ∧
    (∀ a b c : ℤ,
      writesTo (insert_step n (StepDetail.jump a b c) now).1
        Reg.profileStepType = [4]) ∧
    (∀ (ea : ℤ) (i1 i2 : ℚ),
      writesTo (insert_step n (StepDetail.endStep ea i1 i2) now).1
        Reg.profileStepType = [5]) ∧
    (∀ (dod st : ℤ) (sd : Option ℤ) (sdate : Option Date),
      writesTo (insert_step n (StepDetail.autostart dod st sd sdate) now).1
        Reg.profileStepType = [0]) := by
  refine ⟨?_, ?_, ?_, ?_, ?_, ?_, ?_⟩
  · refine ⟨?_, ?_, ?_, ?_, ?_, ?_, ?_, ?_⟩ <;>
      simp [insert_step, mseq, select_step, eventWrites, eventLoopLog, writesTo]
  · simp [insert_step, mseq, select_step, eventWrites, eventLoopLog, writesTo]
  · intro wf2 states rate sp pid g
    cases states with
    | nil => simp [insert_step, mseq, select_step, eventWrites, eventLoopLog, writesTo]
    | cons s rest =>
        simp [insert_step, mseq, select_step, eventWrites, eventLoopLog, writesTo,
          writesTo_append, writesTo_eventWrites_stepType]
  · intro wf2 states dur2 p1 p2 g1 g2
    cases states with
    | nil => simp [insert_step, mseq, select_step, eventWrites, eventLoopLog, writesTo]
    | cons s rest =>
        simp [insert_step, mseq, select_step, eventWrites, eventLoopLog, writesTo,
          writesTo_append, writesTo_eventWrites_stepType]
  · intro a b c
    simp [insert_step, mseq, select_step, writesTo]
  · intro ea i1 i2
    simp [insert_step, mseq, select_step, writesTo]
  · intro dod st sd sdate
    cases sd <;>
      simp [insert_step, mseq, select_step, writesTo]

/-- SI-mode inputs exercising the cross-wired derivative/reset branch of
`write_pid_parameters`: derivative present but reset absent. -/
def pidDerivOnly : PIDParameters := ⟨10, some 0, none, none, some 5, none, none⟩

/-- Inputs with derivative 20 and reset 5 present, to show which field value
lands in which register. -/
def pidDerivAndReset : PIDParameters := ⟨10, some 0, none, none, some 20, some 5, none⟩

/-- US-mode inputs exercising the cross-wired branch: reset present but
derivative absent. -/
def pidResetOnly : PIDParameters := ⟨10, some 0, none, none, none, some 5, none⟩

/-- C1: the claim fails on the code.  In SI mode a present derivative makes
`write_pid_parameters` read the RESET field: with reset absent it raises
TypeError (so values ARE rejected), and with reset 5 / derivative 20 present
it writes 5 — the reset field's value — to the RESET register and nothing to
the derivative register.  Symmetrically in US mode a present reset reads the
derivative field: with derivative absent it raises TypeError, and with both
present the derivative value 20 is clamped against `RESET_US_ENG_PARAM` and
written to the DERIVATIVE register while the reset register gets nothing. -/
theorem write_pid_parameters_crosswired :
    (write_pid_parameters PidUnitsMode.SI pidDerivOnly false).2 =
      Except.error PyErr.typeError ∧
    writesTo (write_pid_parameters PidUnitsMode.SI pidDerivAndReset false).1
      Reg.pidResetUS = [5] ∧
    writesTo (write_pid_parameters PidUnitsMode.SI pidDerivAndReset false).1
      Reg.pidDerivativeSI = [] ∧
    (write_pid_parameters PidUnitsMode.US pidResetOnly false).2 =
      Except.error PyErr.typeError ∧
    writesTo (write_pid_parameters PidUnitsMode.US pidDerivAndReset false).1
      Reg.pidDerivativeSI = [20] ∧
    writesTo (write_pid_parameters PidUnitsMode.US pidDerivAndReset false).1
      Reg.pidResetUS = [] := by
  have hd : clampSeq DERIVATIVE_SI_ENG_PARAM 5 = 5 := by
    norm_num [clampSeq, DERIVATIVE_SI_ENG_PARAM]
  have hr : clampSeq RESET_US_ENG_PARAM 20 = 20 := by
    norm_num [clampSeq, RESET_US_ENG_PARAM]
  refine ⟨rfl, ?_, ?_, rfl, ?_, ?_⟩ <;>
    simp [write_pid_parameters, pidDerivAndReset, mseq, writesTo,
      save_changes_to_eeprom, hd, hr]

/-- C4 (amended): when a hysteresis value is present and
`write_pid_parameters` completes without raising, the hysteresis register is
written (with the rounded clamped hysteresis) exactly when the ROUNDED clamped
proportional band — the integer actually written to the PB register,
`int(round(pb_val))` — equals 0; it is skipped otherwise. -/
theorem hysteresis_written_iff_pb_rounds_to_zero (mode : PidUnitsMode)
    (p : PIDParameters) (commitFails : Bool) (v : ℚ)
    (hv : p.hysteresis = some v)
    (hok : (write_pid_parameters mode p commitFails).2 = Except.ok ()) :
    writesTo (write_pid_parameters mode p commitFails).1 Reg.pidHyst =
      (if pythonRound (clampLoHi PB_ENG_PARAM p.proportional_band) = 0 then
        [(pythonRound (clampSeq HYST_ENG_PARAM v) : ℚ)]
      else []) := by
  obtain ⟨pb, db, hy, it, de, re, ra⟩ := p
  dsimp only at hv
  subst hv
  cases mode <;> cases commitFails <;> cases it <;> cases de <;> cases re <;>
      cases ra <;> cases db <;>
    simp only [write_pid_parameters, save_changes_to_eeprom, mseq] at hok ⊢ <;>
    split_ifs <;>
    simp_all [writesTo]

/-- A hysteresis-present input whose proportional band 0.4 is in range (so
clamping leaves it at 0.4 ≠ 0) but rounds to 0. -/
def pidHystAtPb04 : PIDParameters := ⟨2/5, none, some 5, none, none, none, none⟩

theorem hysteresis_written_iff_pb_rounds_to_zero_witness :
    pidHystAtPb04.hysteresis = some 5 ∧
    (write_pid_parameters PidUnitsMode.SI pidHystAtPb04 false).2 = Except.ok () ∧
    writesTo (write_pid_parameters PidUnitsMode.SI pidHystAtPb04 false).1
        Reg.pidHyst =
      (if pythonRound (clampLoHi PB_ENG_PARAM pidHystAtPb04.proportional_band) = 0 then
        [(pythonRound (clampSeq HYST_ENG_PARAM 5) : ℚ)]
      else []) := by
  have hok : (write_pid_parameters PidUnitsMode.SI pidHystAtPb04 false).2 =
      Except.ok () := by
    simp [write_pid_parameters, pidHystAtPb04, mseq_snd, save_changes_to_eeprom,
      apply_ite]
  exact ⟨rfl, hok,
    hysteresis_written_iff_pb_rounds_to_zero PidUnitsMode.SI pidHystAtPb04 false 5
      rfl hok⟩

/-- C4 counterexample: with proportional band 0.4 the value after clamping is
0.4 ≠ 0, yet the hysteresis register IS written (because `int(round(0.4))`
is 0), refuting "written if and only if the clamped proportional band equals
exactly 0". -/
theorem hysteresis_written_at_nonzero_clamped_pb :
    clampLoHi PB_ENG_PARAM (2/5) ≠ 0 ∧
    writesTo (write_pid_parameters PidUnitsMode.SI pidHystAtPb04 false).1
      Reg.pidHyst = [5] := by
  have h1 : pythonRound (clampLoHi PB_ENG_PARAM (2/5)) = 0 := by
    norm_num [pythonRound, clampLoHi, PB_ENG_PARAM]
  have h2 : clampSeq HYST_ENG_PARAM 5 = 5 := by
    norm_num [clampSeq, HYST_ENG_PARAM]
  have h3 : pythonRound (5 : ℚ) = 5 := by
    norm_num [pythonRound]
  refine ⟨by norm_num [clampLoHi, PB_ENG_PARAM], ?_⟩
  simp [write_pid_parameters, pidHystAtPb04, mseq, writesTo,
    save_changes_to_eeprom, h1, h2, h3]

end Watlow
